import Mathlib

/-!
Shallow embedding of the order pricing / placement engine in `src/main.py`.

Modelling conventions:
- Money, weights and time quantities are modelled as `ℚ` (the spec's exact
  decimal arithmetic contract for prices and totals).
- `uuid.uuid4()` identities are modelled as externally supplied `Nat`
  identifiers passed to the constructor functions.
- `datetime.now()` is modelled as an explicit `now : ℚ` parameter (hours since
  an arbitrary epoch); `timedelta` values are rendered in hours.
- Python dictionaries (the shopping cart's `items`, keyed by product object
  identity) are modelled as insertion-ordered association lists keyed by the
  product identifier.
- A raised exception is modelled as a `none` result; since the raising method
  also mutates its object before raising, it returns the mutated state
  alongside the optional result.
-/

inductive OrderStatus where
  | PENDING : OrderStatus
  | PAID : OrderStatus
  | SHIPPED : OrderStatus
  | DELIVERED : OrderStatus
  deriving DecidableEq, Repr

structure DeliveryInfo where
  cost : ℚ
  delivery_time : ℚ
  estimated_delivery_time : ℚ
  deriving DecidableEq, Repr

structure Product where
  id : Nat
  name : String
  description : String
  price : ℚ
  stock_quantity : Int
  deriving DecidableEq, Repr

structure Customer where
  name : String
  email : String
  address : String
  phone_number : String
  deriving DecidableEq, Repr

structure PaymentProcessor where
  type : String
  deriving DecidableEq, Repr

/-- `PaymentProcessor.process_payment` prints its arguments and returns `True`
unconditionally. -/
def PaymentProcessor.process_payment (_p : PaymentProcessor) (_amount : ℚ)
    (_details : List (String × String)) : Bool :=
  true

structure OrderItem where
  product : Product
  quantity : Int
  final_price : ℚ
  deriving DecidableEq, Repr

/-- `OrderItem.__init__`: snapshots `final_price = product.price * quantity`. -/
def OrderItem.init (product : Product) (quantity : Int) : OrderItem :=
  { product := product, quantity := quantity,
    final_price := product.price * (quantity : ℚ) }

def OrderItem.get_subtotal (item : OrderItem) : ℚ :=
  item.final_price

structure ShoppingCart where
  items : List (Product × Int)
  deriving DecidableEq, Repr

/-- `ShoppingCart.__init__`: empty dictionary. -/
def ShoppingCart.init : ShoppingCart :=
  { items := [] }

/-- `ShoppingCart.add_item`: if the product is already a key, add to its
quantity, otherwise append a new entry (Python dicts are insertion-ordered). -/
def ShoppingCart.add_item (cart : ShoppingCart) (product : Product)
    (quantity : Int) : ShoppingCart :=
  if cart.items.any (fun pq => pq.1.id == product.id) then
    { items := cart.items.map
        (fun pq => if pq.1.id == product.id then (pq.1, pq.2 + quantity) else pq) }
  else
    { items := cart.items ++ [(product, quantity)] }

/-- `ShoppingCart.remove_item`: delete the product's aggregate entry. -/
def ShoppingCart.remove_item (cart : ShoppingCart) (product : Product) :
    ShoppingCart :=
  { items := cart.items.filter (fun pq => pq.1.id != product.id) }

def ShoppingCart.get_items (cart : ShoppingCart) : List (Product × Int) :=
  cart.items

def ShoppingCart.calculate_subtotal (cart : ShoppingCart) : ℚ :=
  (cart.items.map (fun pq => pq.1.price * (pq.2 : ℚ))).sum

/-- The closed set of discount strategies of `src/main.py`.  The field of
`PercentageDiscountStrategy` holds the value stored by its `__init__`, namely
`percentage / 100`. -/
inductive DiscountStrategy where
  | NoDiscount : DiscountStrategy
  | PercentageDiscountStrategy (percentage : ℚ) : DiscountStrategy
  | FixedAmountDiscountStrategy (fixed_amount : ℚ) : DiscountStrategy
  deriving DecidableEq, Repr

/-- `PercentageDiscountStrategy.__init__`: stores `percentage / 100.0`. -/
def PercentageDiscountStrategy.init (percentage : ℚ) : DiscountStrategy :=
  DiscountStrategy.PercentageDiscountStrategy (percentage / 100)

/-- `apply_discount` of each concrete strategy class.  Note that the source's
`NoDiscount.apply_discount` returns `amount` itself, not `0`. -/
def DiscountStrategy.apply_discount : DiscountStrategy → ℚ → ℚ
  | DiscountStrategy.NoDiscount, amount => amount
  | DiscountStrategy.PercentageDiscountStrategy stored, amount => amount * stored
  | DiscountStrategy.FixedAmountDiscountStrategy fixed_amount, amount =>
      min amount fixed_amount

/-- The closed set of delivery strategies of `src/main.py`. -/
inductive DeliveryStrategy where
  | PickupDeliveryStrategy : DeliveryStrategy
  | CourierDeliveryStrategy : DeliveryStrategy
  | PostDeliveryStrategy : DeliveryStrategy
  deriving DecidableEq, Repr

def DeliveryStrategy.COST : DeliveryStrategy → ℚ
  | DeliveryStrategy.PickupDeliveryStrategy => 0
  | DeliveryStrategy.CourierDeliveryStrategy => 400
  | DeliveryStrategy.PostDeliveryStrategy => 150

/-- `TIME_DELTA` of each strategy class, in hours (4 hours, 2 days, 7 days). -/
def DeliveryStrategy.TIME_DELTA : DeliveryStrategy → ℚ
  | DeliveryStrategy.PickupDeliveryStrategy => 4
  | DeliveryStrategy.CourierDeliveryStrategy => 48
  | DeliveryStrategy.PostDeliveryStrategy => 168

def DeliveryStrategy.calculate_cost (s : DeliveryStrategy) (_address : String)
    (_total_weight : ℚ) : ℚ :=
  s.COST

/-- `estimate_delivery_time` of each strategy class.  Pickup puts its real
`COST` into the quote; Courier and Post put the placeholder `float(0)`. -/
def DeliveryStrategy.estimate_delivery_time (s : DeliveryStrategy) (now : ℚ)
    (_address : String) : DeliveryInfo :=
  match s with
  | DeliveryStrategy.PickupDeliveryStrategy =>
      { cost := s.COST, delivery_time := s.TIME_DELTA,
        estimated_delivery_time := now + s.TIME_DELTA }
  | DeliveryStrategy.CourierDeliveryStrategy =>
      { cost := 0, delivery_time := s.TIME_DELTA,
        estimated_delivery_time := now + s.TIME_DELTA }
  | DeliveryStrategy.PostDeliveryStrategy =>
      { cost := 0, delivery_time := s.TIME_DELTA,
        estimated_delivery_time := now + s.TIME_DELTA }

structure Order where
  customer : Customer
  items : List OrderItem
  total_amount : ℚ
  status : OrderStatus
  discount_strategy : DiscountStrategy
  delivery_strategy : Option DeliveryStrategy
  applied_discount : ℚ
  delivery_info : Option DeliveryInfo
  subtotal_calculated : ℚ
  delivery_cost : ℚ
  deriving DecidableEq, Repr

/-- `Order.__init__`: empty lines, all numeric breakdown fields zero, status
Pending, default `NoDiscount` discount strategy, no delivery strategy. -/
def Order.init (customer : Customer) : Order :=
  { customer := customer, items := [], total_amount := 0,
    status := OrderStatus.PENDING,
    discount_strategy := DiscountStrategy.NoDiscount,
    delivery_strategy := none, applied_discount := 0, delivery_info := none,
    subtotal_calculated := 0, delivery_cost := 0 }

def Order.set_discount_strategy (o : Order) (strategy : DiscountStrategy) :
    Order :=
  { o with discount_strategy := strategy }

def Order.set_delivery_strategy (o : Order) (strategy : DeliveryStrategy) :
    Order :=
  { o with delivery_strategy := some strategy }

/-- `Order.add_item_from_cart`: appends a fresh `OrderItem`; never merges. -/
def Order.add_item_from_cart (o : Order) (product : Product) (quantity : Int) :
    Order :=
  { o with items := o.items ++ [OrderItem.init product quantity] }

/-- `Order.calculate_subtotal`: sums line subtotals and records the result. -/
def Order.calculate_subtotal (o : Order) : Order × ℚ :=
  let subtotal := (o.items.map OrderItem.get_subtotal).sum
  ({ o with subtotal_calculated := subtotal }, subtotal)

/-- `Order.calculate_total`: recompute subtotal, apply discount, then require a
delivery strategy (raise `ValueError` otherwise — modelled as the `none`
result, with the mutations made so far kept), compute delivery cost, estimate
the delivery quote and overwrite its cost field, record and return the total. -/
def Order.calculate_total (o : Order) (now : ℚ) (total_weight : ℚ) :
    Order × Option ℚ :=
  let r := o.calculate_subtotal
  let o1 := r.1
  let subtotal := r.2
  let applied := o1.discount_strategy.apply_discount subtotal
  let o2 := { o1 with applied_discount := applied }
  let amount_after_discount := subtotal - applied
  match o2.delivery_strategy with
  | none => (o2, none)
  | some ds =>
    let cost := ds.calculate_cost o2.customer.address total_weight
    let o3 := { o2 with delivery_cost := cost }
    let info0 := ds.estimate_delivery_time now o3.customer.address
    let info := { info0 with cost := o3.delivery_cost }
    let o4 := { o3 with delivery_info := some info }
    let total := amount_after_discount + o4.delivery_cost
    ({ o4 with total_amount := total }, some total)

structure OrderPlacementFacade where
  payment_processor : PaymentProcessor
  deriving DecidableEq, Repr

/-- The body of `OrderPlacementFacade.place_order`, generic in the payment
gate call so the gate's boolean outcome can be quantified over.  A `none`
result models the propagated `ValueError` of `calculate_total`. -/
def place_order_with_gate (gate : ℚ → List (String × String) → Bool)
    (cart : ShoppingCart) (customer : Customer)
    (discount_strategy : DiscountStrategy)
    (delivery_strategy : DeliveryStrategy)
    (delivery_details_weight : Option ℚ)
    (payment_details : List (String × String)) (now : ℚ) : Option Order :=
  let order0 := Order.init customer
  let total_weight := delivery_details_weight.getD 0
  let order1 := (cart.get_items).foldl
    (fun o pq => o.add_item_from_cart pq.1 pq.2) order0
  let order2 := order1.set_discount_strategy discount_strategy
  let order3 := order2.set_delivery_strategy delivery_strategy
  match order3.calculate_total now total_weight with
  | (_, none) => none
  | (order4, some final_amount) =>
    if gate final_amount payment_details then
      some { order4 with status := OrderStatus.PAID }
    else
      some { order4 with status := OrderStatus.PENDING }

/-- `OrderPlacementFacade.place_order` with the facade's own payment
processor as the gate. -/
def OrderPlacementFacade.place_order (f : OrderPlacementFacade)
    (cart : ShoppingCart) (customer : Customer)
    (discount_strategy : DiscountStrategy)
    (delivery_strategy : DeliveryStrategy)
    (delivery_details_weight : Option ℚ)
    (payment_details : List (String × String)) (now : ℚ) : Option Order :=
  place_order_with_gate (f.payment_processor.process_payment) cart customer
    discount_strategy delivery_strategy delivery_details_weight
    payment_details now

/-! Demo fixtures from the driver code at the bottom of `src/main.py`. -/

def milk : Product :=
  { id := 1, name := "Молоко", description := "2.5% жирности",
    price := 85, stock_quantity := 100 }

def bread : Product :=
  { id := 2, name := "Хлеб", description := "Белый нарезной",
    price := 40, stock_quantity := 50 }

def heavy_item : Product :=
  { id := 3, name := "Гантель 15кг", description := "Для спорта",
    price := 1200, stock_quantity := 10 }

def client : Customer :=
  { name := "Иван Петров", email := "ma@gmail.com",
    address := "ул. Ленина, 10, Москва", phone_number := "+7-999-111-22-33" }

def processor : PaymentProcessor :=
  { type := "Наличкой" }

def demo_cart : ShoppingCart :=
  ((ShoppingCart.init.add_item milk 2).add_item bread 1).add_item heavy_item 1

def demo_order : Option Order :=
  (OrderPlacementFacade.mk processor).place_order demo_cart client
    (DiscountStrategy.FixedAmountDiscountStrategy 100)
    DeliveryStrategy.CourierDeliveryStrategy
    (some 16) [("card_number", "1234...")] 0

/-! Claim theorems. -/

/-- Claim C1, code behavior at the failing input: the source's
`NoDiscount.apply_discount` applied to subtotal 1 returns 1 (the whole
subtotal taken as the discount amount), not 0 as the claim states. -/
theorem c1_noDiscount_code_behavior :
    DiscountStrategy.NoDiscount.apply_discount 1 = 1
    ∧ DiscountStrategy.NoDiscount.apply_discount 1 ≠ 0 := by
  refine ⟨rfl, ?_⟩
  decide

/-- Claim C2, counterexample: the claim as stated (all constructor parameters
admitted) is false — a percentage strategy constructed with p = 200 yields a
discount of 2 on subtotal 1, exceeding the subtotal, and a fixed-capped
strategy with cap -1 yields a negative discount on subtotal 1. -/
theorem c2_counterexample :
    ¬ (∀ (p f s : ℚ), 0 ≤ s →
        (0 ≤ DiscountStrategy.NoDiscount.apply_discount s
          ∧ DiscountStrategy.NoDiscount.apply_discount s ≤ s)
        ∧ (0 ≤ (PercentageDiscountStrategy.init p).apply_discount s
          ∧ (PercentageDiscountStrategy.init p).apply_discount s ≤ s)
        ∧ (0 ≤ (DiscountStrategy.FixedAmountDiscountStrategy f).apply_discount s
          ∧ (DiscountStrategy.FixedAmountDiscountStrategy f).apply_discount s ≤ s)) := by
  intro h
  have hpct := (h 200 (-1) 1 (by norm_num)).2.1.2
  rw [show PercentageDiscountStrategy.init 200
        = DiscountStrategy.PercentageDiscountStrategy 2 by
      unfold PercentageDiscountStrategy.init; norm_num] at hpct
  have : (DiscountStrategy.PercentageDiscountStrategy 2).apply_discount 1 = 2 := by
    show (1 : ℚ) * 2 = 2
    norm_num
  rw [this] at hpct
  norm_num at hpct

/-- Claim C2, amended: for the no-discount strategy always, for percentage
strategies constructed with a parameter 0 ≤ p ≤ 100, and for fixed-capped
strategies with a cap 0 ≤ f, every subtotal s ≥ 0 satisfies
0 ≤ apply_discount(s) ≤ s. -/
theorem c2_discount_bounds (p f s : ℚ) (hp0 : 0 ≤ p) (hp1 : p ≤ 100)
    (hf : 0 ≤ f) (hs : 0 ≤ s) :
    (0 ≤ DiscountStrategy.NoDiscount.apply_discount s
      ∧ DiscountStrategy.NoDiscount.apply_discount s ≤ s)
    ∧ (0 ≤ (PercentageDiscountStrategy.init p).apply_discount s
      ∧ (PercentageDiscountStrategy.init p).apply_discount s ≤ s)
    ∧ (0 ≤ (DiscountStrategy.FixedAmountDiscountStrategy f).apply_discount s
      ∧ (DiscountStrategy.FixedAmountDiscountStrategy f).apply_discount s ≤ s) := by
  refine ⟨⟨hs, le_refl s⟩, ⟨?_, ?_⟩, ⟨?_, ?_⟩⟩
  · show 0 ≤ s * (p / 100)
    exact mul_nonneg hs (div_nonneg hp0 (by norm_num))
  · show s * (p / 100) ≤ s
    have hle : p / 100 ≤ 1 := by
      rw [div_le_one (by norm_num : (0:ℚ) < 100)]
      exact hp1
    exact mul_le_of_le_one_right hs hle
  · show 0 ≤ min s f
    exact le_min hs hf
  · show min s f ≤ s
    exact min_le_left s f

/-- Witness for the amended claim C2 at p = 50, f = 10, s = 20. -/
theorem c2_discount_bounds_witness :
    ((0:ℚ) ≤ 50 ∧ (50:ℚ) ≤ 100 ∧ (0:ℚ) ≤ 10 ∧ (0:ℚ) ≤ 20)
    ∧ ((0 ≤ DiscountStrategy.NoDiscount.apply_discount 20
        ∧ DiscountStrategy.NoDiscount.apply_discount 20 ≤ 20)
      ∧ (0 ≤ (PercentageDiscountStrategy.init 50).apply_discount 20
        ∧ (PercentageDiscountStrategy.init 50).apply_discount 20 ≤ 20)
      ∧ (0 ≤ (DiscountStrategy.FixedAmountDiscountStrategy 10).apply_discount 20
        ∧ (DiscountStrategy.FixedAmountDiscountStrategy 10).apply_discount 20 ≤ 20)) :=
  ⟨by norm_num,
   c2_discount_bounds 50 10 20 (by norm_num) (by norm_num) (by norm_num) (by norm_num)⟩

/-- Claim C3: `calculate_total` fails (raises `ValueError`) exactly when the
delivery strategy is unset, for every order, clock value and weight; with a
strategy attached it returns a value. -/
theorem c3_missing_delivery_strategy (o : Order) (now total_weight : ℚ) :
    (o.calculate_total now total_weight).2 = none
      ↔ o.delivery_strategy = none := by
  cases h : o.delivery_strategy with
  | none => simp [Order.calculate_total, Order.calculate_subtotal, h]
  | some ds => simp [Order.calculate_total, Order.calculate_subtotal, h]

/-- Claim C4: whenever `calculate_total` returns successfully, the updated
order satisfies `total_amount = (subtotal_calculated - applied_discount) +
delivery_cost` exactly, and a freshly constructed order has all four derived
fields equal to zero. -/
theorem c4_total_breakdown (o o2 : Order) (now total_weight t : ℚ)
    (c : Customer) (h : o.calculate_total now total_weight = (o2, some t)) :
    o2.total_amount
      = (o2.subtotal_calculated - o2.applied_discount) + o2.delivery_cost
    ∧ (Order.init c).subtotal_calculated = 0
    ∧ (Order.init c).applied_discount = 0
    ∧ (Order.init c).delivery_cost = 0
    ∧ (Order.init c).total_amount = 0 := by
  refine ⟨?_, rfl, rfl, rfl, rfl⟩
  unfold Order.calculate_total Order.calculate_subtotal at h
  cases hd : o.delivery_strategy with
  | none => simp [hd] at h
  | some ds =>
      simp only [hd] at h
      obtain ⟨h1, h2⟩ := Prod.mk.injEq .. ▸ h
      subst h1
      simp

def c4_sample_order : Order :=
  (Order.init client).set_delivery_strategy
    DeliveryStrategy.PickupDeliveryStrategy

def c4_sample_result : Order := (c4_sample_order.calculate_total 0 0).1

/-- Witness for claim C4 on a concrete order with the pickup strategy. -/
theorem c4_total_breakdown_witness :
    (c4_sample_order.calculate_total 0 0 = (c4_sample_result, some 0))
    ∧ (c4_sample_result.total_amount
        = (c4_sample_result.subtotal_calculated
            - c4_sample_result.applied_discount) + c4_sample_result.delivery_cost
      ∧ (Order.init client).subtotal_calculated = 0
      ∧ (Order.init client).applied_discount = 0
      ∧ (Order.init client).delivery_cost = 0
      ∧ (Order.init client).total_amount = 0) := by
  have hx : c4_sample_order.calculate_total 0 0 = (c4_sample_result, some 0) := by
    unfold c4_sample_result
    refine Prod.ext rfl ?_
    simp [c4_sample_order, Order.calculate_total, Order.calculate_subtotal,
      Order.set_delivery_strategy, Order.init, DiscountStrategy.apply_discount,
      DeliveryStrategy.calculate_cost, DeliveryStrategy.COST]
  exact ⟨hx, c4_total_breakdown c4_sample_order c4_sample_result 0 0 0 client hx⟩

/-- Claim C5: after `calculate_total` with an attached delivery strategy, the
stored delivery quote's cost equals the strategy's `calculate_cost` result;
the raw `estimate_delivery_time` quotes of the courier and postal variants
carry the 0 placeholder instead. -/
theorem c5_quote_cost_reconciled (o : Order) (now total_weight : ℚ)
    (ds : DeliveryStrategy) (h : o.delivery_strategy = some ds) :
    ((o.calculate_total now total_weight).1.delivery_info).map DeliveryInfo.cost
      = some (ds.calculate_cost o.customer.address total_weight)
    ∧ (DeliveryStrategy.CourierDeliveryStrategy.estimate_delivery_time now
        o.customer.address).cost = 0
    ∧ (DeliveryStrategy.PostDeliveryStrategy.estimate_delivery_time now
        o.customer.address).cost = 0 := by
  refine ⟨?_, rfl, rfl⟩
  unfold Order.calculate_total Order.calculate_subtotal
  simp [h]

def c5_sample_order : Order :=
  (Order.init client).set_delivery_strategy
    DeliveryStrategy.CourierDeliveryStrategy

/-- Witness for claim C5 on a concrete order with the courier strategy. -/
theorem c5_quote_cost_reconciled_witness :
    (c5_sample_order.delivery_strategy
      = some DeliveryStrategy.CourierDeliveryStrategy)
    ∧ (((c5_sample_order.calculate_total 0 16).1.delivery_info).map
          DeliveryInfo.cost
        = some (DeliveryStrategy.CourierDeliveryStrategy.calculate_cost
            c5_sample_order.customer.address 16)
      ∧ (DeliveryStrategy.CourierDeliveryStrategy.estimate_delivery_time 0
          c5_sample_order.customer.address).cost = 0
      ∧ (DeliveryStrategy.PostDeliveryStrategy.estimate_delivery_time 0
          c5_sample_order.customer.address).cost = 0) :=
  ⟨rfl, c5_quote_cost_reconciled c5_sample_order 0 16
    DeliveryStrategy.CourierDeliveryStrategy rfl⟩

/-- Claim C9: when `calculate_total` raises the missing-delivery-strategy
error, the order has already recorded the recomputed subtotal and the applied
discount, while delivery cost, delivery quote, total amount and status are
unchanged. -/
theorem c9_partial_mutation_on_error (o : Order) (now total_weight : ℚ)
    (h : o.delivery_strategy = none) :
    (o.calculate_total now total_weight).2 = none
    ∧ (o.calculate_total now total_weight).1.subtotal_calculated
        = (o.items.map OrderItem.get_subtotal).sum
    ∧ (o.calculate_total now total_weight).1.applied_discount
        = o.discount_strategy.apply_discount
            ((o.items.map OrderItem.get_subtotal).sum)
    ∧ (o.calculate_total now total_weight).1.delivery_cost = o.delivery_cost
    ∧ (o.calculate_total now total_weight).1.delivery_info = o.delivery_info
    ∧ (o.calculate_total now total_weight).1.total_amount = o.total_amount
    ∧ (o.calculate_total now total_weight).1.status = o.status := by
  unfold Order.calculate_total Order.calculate_subtotal
  simp [h]

/-- Witness for claim C9 on a freshly constructed order (no delivery
strategy). -/
theorem c9_partial_mutation_on_error_witness :
    ((Order.init client).delivery_strategy = none)
    ∧ (((Order.init client).calculate_total 0 5).2 = none
      ∧ ((Order.init client).calculate_total 0 5).1.subtotal_calculated
          = ((Order.init client).items.map OrderItem.get_subtotal).sum
      ∧ ((Order.init client).calculate_total 0 5).1.applied_discount
          = (Order.init client).discount_strategy.apply_discount
              (((Order.init client).items.map OrderItem.get_subtotal).sum)
      ∧ ((Order.init client).calculate_total 0 5).1.delivery_cost
          = (Order.init client).delivery_cost
      ∧ ((Order.init client).calculate_total 0 5).1.delivery_info
          = (Order.init client).delivery_info
      ∧ ((Order.init client).calculate_total 0 5).1.total_amount
          = (Order.init client).total_amount
      ∧ ((Order.init client).calculate_total 0 5).1.status
          = (Order.init client).status) :=
  ⟨rfl, c9_partial_mutation_on_error (Order.init client) 0 5 rfl⟩

/-- Adding a product that is not yet in the cart appends a fresh entry. -/
theorem shoppingCart_add_item_fresh (c : ShoppingCart) (p : Product) (q : Int)
    (hfresh : ∀ pq ∈ c.items, pq.1.id ≠ p.id) :
    (c.add_item p q).items = c.items ++ [(p, q)] := by
  unfold ShoppingCart.add_item
  have hany : c.items.any (fun pq => pq.1.id == p.id) = false := by
    rw [List.any_eq_false]
    intro pq hpq
    simpa using hfresh pq hpq
  simp [hany]

/-- The merge map of `add_item` leaves entries with a different product
identifier untouched. -/
theorem shoppingCart_merge_map_skip (l : List (Product × Int)) (p : Product)
    (q : Int) (h : ∀ pq ∈ l, pq.1.id ≠ p.id) :
    l.map (fun pq => if pq.1.id == p.id then (pq.1, pq.2 + q) else pq) = l := by
  induction l with
  | nil => rfl
  | cons x xs ih =>
      have hx : (x.1.id == p.id) = false := by
        simpa using h x (List.mem_cons_self x xs)
      simp only [List.map_cons, hx, Bool.false_eq_true, if_false]
      rw [ih fun pq hpq => h pq (List.mem_cons_of_mem x hpq)]

/-- Adding a product that is already in the cart merges into the existing
entry. -/
theorem shoppingCart_add_item_present (c : ShoppingCart) (p : Product) (q : Int)
    (hmem : c.items.any (fun pq => pq.1.id == p.id) = true) :
    (c.add_item p q).items
      = c.items.map (fun pq => if pq.1.id == p.id then (pq.1, pq.2 + q) else pq) := by
  unfold ShoppingCart.add_item
  simp [hmem]

/-- Claim C6: adding the same product twice to an order appends two distinct
lines whose summed subtotal equals a single line of the combined quantity,
while adding the same product twice to a shopping cart yields one aggregated
entry with the combined quantity. -/
theorem c6_order_appends_cart_merges (p : Product) (q1 q2 : Int) (o : Order)
    (c : ShoppingCart) (hfresh : ∀ pq ∈ c.items, pq.1.id ≠ p.id) :
    ((o.add_item_from_cart p q1).add_item_from_cart p q2).items
      = o.items ++ [OrderItem.init p q1, OrderItem.init p q2]
    ∧ (OrderItem.init p q1).get_subtotal + (OrderItem.init p q2).get_subtotal
      = (OrderItem.init p (q1 + q2)).get_subtotal
    ∧ ((c.add_item p q1).add_item p q2).items = c.items ++ [(p, q1 + q2)] := by
  refine ⟨?_, ?_, ?_⟩
  · simp [Order.add_item_from_cart]
  · show p.price * (q1 : ℚ) + p.price * (q2 : ℚ) = p.price * ((q1 + q2 : Int) : ℚ)
    push_cast
    ring
  · have h1 : (c.add_item p q1).items = c.items ++ [(p, q1)] :=
      shoppingCart_add_item_fresh c p q1 hfresh
    have hmem : ((c.add_item p q1).items).any (fun pq => pq.1.id == p.id)
        = true := by
      rw [h1, List.any_append]
      simp
    rw [shoppingCart_add_item_present (c.add_item p q1) p q2 hmem, h1,
      List.map_append, shoppingCart_merge_map_skip c.items p q2 hfresh]
    simp

/-- Witness for claim C6 with the milk product, quantities 2 and 3, a fresh
order and an empty cart. -/
theorem c6_order_appends_cart_merges_witness :
    (∀ pq ∈ (ShoppingCart.init).items, pq.1.id ≠ milk.id)
    ∧ ((((Order.init client).add_item_from_cart milk 2).add_item_from_cart
          milk 3).items
        = (Order.init client).items ++ [OrderItem.init milk 2, OrderItem.init milk 3]
      ∧ (OrderItem.init milk 2).get_subtotal + (OrderItem.init milk 3).get_subtotal
        = (OrderItem.init milk (2 + 3)).get_subtotal
      ∧ ((ShoppingCart.init.add_item milk 2).add_item milk 3).items
        = ShoppingCart.init.items ++ [(milk, 2 + 3)]) :=
  ⟨by simp [ShoppingCart.init],
   c6_order_appends_cart_merges milk 2 3 (Order.init client) ShoppingCart.init
     (by simp [ShoppingCart.init])⟩

/-- Claim C7: in the demo scenario (products priced 85 qty 2, 40 qty 1,
1200 qty 1; fixed-amount discount capped at 100; courier delivery; weight 16)
the cart subtotal is 1410 and the placed order records subtotal 1410, applied
discount 100, delivery cost 400 and total 1710; the courier cost is flat,
independent of the weight and address arguments. -/
theorem c7_demo_scenario :
    demo_cart.calculate_subtotal = 1410
    ∧ demo_order.map Order.subtotal_calculated = some 1410
    ∧ demo_order.map Order.applied_discount = some 100
    ∧ demo_order.map Order.delivery_cost = some 400
    ∧ demo_order.map Order.total_amount = some 1710
    ∧ ∀ (address : String) (w : ℚ),
        DeliveryStrategy.CourierDeliveryStrategy.calculate_cost address w
          = 400 := by
  refine ⟨?_, ?_, ?_, ?_, ?_, fun address w => rfl⟩
  · norm_num [demo_cart, ShoppingCart.calculate_subtotal, ShoppingCart.add_item,
      ShoppingCart.init, milk, bread, heavy_item]
  all_goals
    norm_num [demo_order, OrderPlacementFacade.place_order, place_order_with_gate,
      PaymentProcessor.process_payment, demo_cart, ShoppingCart.add_item,
      ShoppingCart.init, ShoppingCart.get_items, milk, bread, heavy_item, client,
      processor, Order.init, Order.set_discount_strategy,
      Order.set_delivery_strategy, Order.add_item_from_cart,
      Order.calculate_total, Order.calculate_subtotal, OrderItem.init,
      OrderItem.get_subtotal, DiscountStrategy.apply_discount,
      DeliveryStrategy.calculate_cost, DeliveryStrategy.COST,
      DeliveryStrategy.estimate_delivery_time, DeliveryStrategy.TIME_DELTA]

/-- Claim C8: for every input of the placement workflow and every boolean
outcome of the payment gate, the returned order's status is Paid when the
gate accepts and Pending when it declines; no other status is produced. -/
theorem c8_status_follows_gate (b : Bool) (cart : ShoppingCart)
    (customer : Customer) (discount_strategy : DiscountStrategy)
    (delivery_strategy : DeliveryStrategy) (delivery_details_weight : Option ℚ)
    (payment_details : List (String × String)) (now : ℚ) :
    (place_order_with_gate (fun _ _ => b) cart customer discount_strategy
        delivery_strategy delivery_details_weight payment_details now).map
      Order.status
      = some (if b then OrderStatus.PAID else OrderStatus.PENDING) := by
  unfold place_order_with_gate
  simp only [Order.calculate_total, Order.calculate_subtotal,
    Order.set_delivery_strategy, Order.set_discount_strategy]
  cases b <;> simp

/-- Claim C10: the provided payment processor accepts every payment, and with
it every run of the facade's `place_order` returns an order whose status is
Paid — the decline branch is unreachable. -/
theorem c10_payment_always_accepts (p : PaymentProcessor) (amount : ℚ)
    (details : List (String × String)) (cart : ShoppingCart)
    (customer : Customer) (discount_strategy : DiscountStrategy)
    (delivery_strategy : DeliveryStrategy) (delivery_details_weight : Option ℚ)
    (payment_details : List (String × String)) (now : ℚ) :
    p.process_payment amount details = true
    ∧ ((OrderPlacementFacade.mk p).place_order cart customer discount_strategy
          delivery_strategy delivery_details_weight payment_details now).map
        Order.status
        = some OrderStatus.PAID := by
  refine ⟨rfl, ?_⟩
  unfold OrderPlacementFacade.place_order place_order_with_gate
  simp only [Order.calculate_total, Order.calculate_subtotal,
    Order.set_delivery_strategy, Order.set_discount_strategy,
    PaymentProcessor.process_payment]
  simp
